import Mathlib

/-!
Verification of `wagtailtinymce` (merll/wagtailtinymce), a TinyMCE rich-text
editor binding for Wagtail.  We shallowly embed the sanitizing whitelister
`DbTinymceWhitelister.clean_tag_node` (src/wagtailtinymce/rich_text.py,
lines 55-93), the client-configuration builder `render_js_init`
(lines 188-216) and the widget read/render paths (lines 181-186, 218-222),
and prove or refute the specification's claims about them.

HTML trees are a nested inductive (string nodes, and elements with an
ordered attribute list and a child list).  BeautifulSoup attribute dicts are
association lists with unique keys; dict assignment (`d[k] = v`) is
`dictInsert`.

The central modelling point is the child loop of the typed-link branch,
`for child in tag.contents: self.clean_node(doc, child)` (line 74).  It
iterates the live `tag.contents` list while `clean_node` mutates that very
list: `tag.decompose()` (line 63) removes the current child, `replace_with`
(line 71) replaces it one-for-one, `tag.unwrap()` (line 82) splices its
children in its place.  Under CPython list-iterator semantics the iterator
advances exactly one position per step over the current list, so after a
removal the former next sibling occupies the just-consumed position and is
skipped — it reaches the output unsanitized.  `clean_tag_contents` models
this faithfully.  The recursive walk of the generic branch belongs to the
external wagtail base `Whitelister` (not part of this repository) and is
modelled from the spec's words: every child is sanitized, unknown tags are
replaced by their sanitized children (`clean_forest_spec`).
-/

/-- A parsed HTML node: a string node or an element with tag name,
attributes (ordered key/value pairs, unique keys as in a dict) and
children. -/
inductive Html where
  | text (s : String)
  | elem (name : String) (attrs : List (String × String)) (children : List Html)

/-- Python `d.get(k)` / `k in d` on an attribute or rule dictionary:
first binding of the key, if any. -/
def alookup {α : Type} (d : List (String × α)) (k : String) : Option α :=
  match d with
  | [] => none
  | (k2, v) :: rest => if k2 = k then some v else alookup rest k

/-- Python `d[k] = v` on a dict (keys are unique): overwrite the existing
binding in place, or append a new one at the end. -/
def dictInsert {α : Type} (d : List (String × α)) (k : String) (v : α) :
    List (String × α) :=
  match d with
  | [] => [(k, v)]
  | (k2, v2) :: rest =>
    if k2 = k then (k, v) :: rest else (k2, v2) :: dictInsert rest k v

/-- Number of bindings of key `k` in `d`. -/
def countKey {α : Type} (d : List (String × α)) (k : String) : Nat :=
  (d.map Prod.fst).count k

/-- An embed or link handler, as registered in `EMBED_HANDLERS` /
`LINK_HANDLERS`: its `get_db_attributes` derives the stored attribute dict
from the editor-format element. -/
structure Handler where
  get_db_attributes : Html → List (String × String)

/-- The state of a `DbTinymceWhitelister`: embed handlers, link handlers
and the generic element rules (wagtail `Whitelister.element_rules`, each
rule an attribute filter as produced by `attribute_rule` /
`allow_without_attributes` in wagtail_hooks.py). -/
structure Whitelister where
  embed_handlers : List (String × Handler)
  link_handlers : List (String × Handler)
  element_rules : List (String × (List (String × String) → List (String × String)))

/-! The number of nodes of a tree / forest (attributes not counted).  It is
the termination measure of the sanitizer: the live-list loop can revisit
nodes spliced in by `unwrap`, so recursion is not structural, but every
cleaning step replaces a node by at most `treeCount`-many nodes derived
from its subtree. -/

mutual
/-- Number of nodes of a tree. -/
def treeCount : Html → Nat
  | Html.text _ => 1
  | Html.elem _ _ children => 1 + forestCount children
/-- Number of nodes of a forest. -/
def forestCount : List Html → Nat
  | [] => 0
  | x :: rest => treeCount x + forestCount rest
end

mutual
/-- One step of the sanitizer: cleaning a single node, as dispatched by
`clean_node`, returning the list of nodes that replace it in its parent's
contents (`DbTinymceWhitelister.clean_tag_node`, rich_text.py lines 55-93;
string nodes pass through unchanged):

* an element with a `data-embedtype` attribute whose type has a handler is
  replaced (`tag.replace_with`, line 71) by a childless `embed` element
  carrying the handler's `get_db_attributes` output with `embedtype` set
  (lines 66-69); without a handler it is decomposed, erased with its whole
  subtree (`tag.decompose()`, lines 61-64);
* an `a` element with a `data-linktype` attribute first has its contents
  run through the live-list loop (line 74, `clean_tag_contents`); with a
  handler its attribute dict is replaced wholesale by the handler output
  with `linktype` set, the element staying in place (lines 85-88), without
  a handler it is unwrapped: the loop's resulting contents take its place
  (`tag.unwrap()`, lines 80-83);
* otherwise a `div` is renamed to `p` (lines 90-91) and the external
  wagtail base `Whitelister.clean_tag_node` applies (line 93), modelled
  from the spec: children sanitized by `clean_forest_spec`, a tag with no
  element rule replaced by them, a tag with a rule kept with its attributes
  filtered by the rule.

The result is bundled with the node-count bound `forestCount d ≤ treeCount c`
that makes the live-list loop terminate. -/
def clean_node_delta (w : Whitelister) (c : Html) :
    {d : List Html // forestCount d ≤ treeCount c} :=
  match c with
  | Html.text s => ⟨[Html.text s], by simp [forestCount, treeCount]⟩
  | Html.elem name attrs children =>
    match alookup attrs "data-embedtype" with
    | some embed_type =>
      match alookup w.embed_handlers embed_type with
      | none =>
        -- discard embeds with unrecognised embedtypes: tag.decompose()
        ⟨[], by simp [forestCount, treeCount]⟩
      | some embed_handler =>
        ⟨[Html.elem "embed"
            (dictInsert (embed_handler.get_db_attributes (Html.elem name attrs children))
              "embedtype" embed_type) []],
         by simp [forestCount, treeCount]⟩
    | none =>
      match (if name = "a" then alookup attrs "data-linktype" else none) with
      | some link_type =>
        -- first, whitelist the contents of this tag (line 74, live list)
        match clean_tag_contents w children with
        | ⟨cleaned, hc⟩ =>
          match alookup w.link_handlers link_type with
          | none =>
            -- discard links with unrecognised linktypes: tag.unwrap()
            ⟨cleaned, by simp [treeCount]; omega⟩
          | some link_handler =>
            ⟨[Html.elem name
                (dictInsert (link_handler.get_db_attributes (Html.elem name attrs cleaned))
                  "linktype" link_type) cleaned],
             by simp [forestCount, treeCount]; omega⟩
      | none =>
        match clean_forest_spec w children with
        | ⟨cleaned, hc⟩ =>
          match alookup w.element_rules (if name = "div" then "p" else name) with
          | none => ⟨cleaned, by simp [treeCount]; omega⟩
          | some rule =>
            ⟨[Html.elem (if name = "div" then "p" else name) (rule attrs) cleaned],
             by simp [forestCount, treeCount]; omega⟩
termination_by 2 * treeCount c
decreasing_by
  all_goals (simp [treeCount]; omega)

/-- The typed-link branch's child loop, rich_text.py line 74:
`for child in tag.contents: self.clean_node(doc, child)`, under CPython
semantics for iterating a list that the body mutates.  One step: the
element at the iterator's position is cleaned and replaced in the list by
its replacement nodes `delta`; the iterator then advances one position over
the resulting list.  So with `rem = delta ++ todo2`, the element
`rem.take 1` is left as it now stands (for an emptied `delta` this is the
*skipped*, unsanitized former next sibling; for a replacement it is the
cleaned node) and the loop continues on `rem.drop 1` — re-reaching, after
an unwrap, the spliced-in children from the second one on. -/
def clean_tag_contents (w : Whitelister) (todo : List Html) :
    {d : List Html // forestCount d ≤ forestCount todo} :=
  match todo with
  | [] => ⟨[], Nat.le_refl _⟩
  | c :: todo2 =>
    match clean_node_delta w c with
    | ⟨delta, hdelta⟩ =>
      match clean_tag_contents w ((delta ++ todo2).drop 1) with
      | ⟨tail, htail⟩ =>
        ⟨(delta ++ todo2).take 1 ++ tail, by
          have h1 : 1 ≤ treeCount c := by cases c <;> simp [treeCount]
          have happ : ∀ (a b : List Html),
              forestCount (a ++ b) = forestCount a + forestCount b := by
            intro a b
            induction a with
            | nil => simp [forestCount]
            | cons q qs ih =>
              simp only [List.cons_append, List.append_eq, forestCount] at ih ⊢
              omega
          have h2 : forestCount ((delta ++ todo2).take 1)
              + forestCount ((delta ++ todo2).drop 1)
              = forestCount (delta ++ todo2) := by
            rw [← happ, List.take_append_drop]
          rw [happ] at h2
          rw [happ]
          simp only [forestCount]
          omega⟩
termination_by 2 * forestCount todo + 1
decreasing_by
  · simp only [forestCount]
    omega
  · have happ : ∀ (a b : List Html), forestCount (a ++ b) = forestCount a + forestCount b := by
      intro a b
      induction a with
      | nil => simp [forestCount]
      | cons q qs ih =>
        simp only [List.cons_append, List.append_eq, forestCount] at ih ⊢
        omega
    have hx : 1 ≤ treeCount x := by cases x <;> simp [treeCount]
    cases delta with
    | nil =>
      cases rest with
      | nil =>
        simp_all [forestCount]
        omega
      | cons y ys =>
        have hy : 1 ≤ treeCount y := by cases y <;> simp [treeCount]
        simp_all [forestCount]
        omega
    | cons d ds =>
      have hd : 1 ≤ treeCount d := by cases d <;> simp [treeCount]
      simp_all [forestCount, happ]
      omega

/-- The recursive sanitization walk over a sibling list as the external
wagtail base `Whitelister` performs it (and as `clean` starts it on the
parsed document's root forest), modelled from the spec's words: every node
is cleaned and its replacement nodes spliced in place. -/
def clean_forest_spec (w : Whitelister) (l : List Html) :
    {d : List Html // forestCount d ≤ forestCount l} :=
  match l with
  | [] => ⟨[], Nat.le_refl _⟩
  | x :: rest =>
    match clean_node_delta w x, clean_forest_spec w rest with
    | ⟨dx, hx⟩, ⟨dr, hr⟩ =>
      ⟨dx ++ dr, by
        have happ : ∀ (a b : List Html),
            forestCount (a ++ b) = forestCount a + forestCount b := by
          intro a b
          induction a with
          | nil => simp [forestCount]
          | cons q qs ih =>
            simp only [List.cons_append, List.append_eq, forestCount] at ih ⊢
            omega
        rw [happ]
        simp [forestCount]
        omega⟩
termination_by 2 * forestCount l + 1
decreasing_by
  · simp only [forestCount]
    omega
  · simp only [forestCount]
    have hx : 1 ≤ treeCount x := by cases x <;> simp [treeCount]
    omega
end

/-- The nodes replacing a single cleaned node (`clean_node` dispatch). -/
def clean_node (w : Whitelister) (c : Html) : List Html :=
  (clean_node_delta w c).1

/-- The final state of a typed link's contents after the line-74 loop. -/
def clean_contents (w : Whitelister) (todo : List Html) : List Html :=
  (clean_tag_contents w todo).1

/-- Sanitization of a sibling forest by the external engine's walk. -/
def clean_nodes (w : Whitelister) (l : List Html) : List Html :=
  (clean_forest_spec w l).1

/-- `EditorTinymceHTMLConverter.to_database_format` (rich_text.py lines
113-114): `clean` parses the fragment and cleans the document, whose root
forest is walked by the external engine. -/
def to_database_format (w : Whitelister) (doc : List Html) : List Html :=
  clean_nodes w doc

/-- A JSON-serializable client-configuration value, as placed into the
`kwargs` dict of `render_js_init` before `json.dumps`. -/
inductive JsVal where
  | str (s : String)
  | strs (l : List String)
  | bool (b : Bool)
deriving DecidableEq

/-- The configuration dict built by `TinyMCERichTextArea.render_js_init`
(rich_text.py lines 188-216): start from a copy of the `options` dict
(lines 189-193), then set, in order,

* `toolbar` (lines 195-202): for a truthy `buttons` value (a list of rows,
  each row a list of groups, each group a list of command names), each row
  becomes one string, command names space-joined within a group and groups
  joined by `" | "`; a missing or empty `buttons` gives `False`;
* `menubar` (lines 204-208): truthy `menus` space-joined, else `False`;
* `language` (lines 210-214): a falsy value or exactly `"en_US"` becomes
  `"en"`, anything else passes through.

`Option.none` models a missing / `None` / `False` entry; a Python falsy
check on a list or string additionally treats the empty value as absent. -/
def render_js_config (options : List (String × JsVal))
    (buttons : Option (List (List (List String))))
    (menus : Option (List String)) (language : Option String) :
    List (String × JsVal) :=
  let kwargs := options
  let kwargs := dictInsert kwargs "toolbar"
    (match buttons with
     | some rows =>
       if rows.isEmpty then JsVal.bool false
       else JsVal.strs (rows.map (fun row =>
         String.intercalate " | " (row.map (fun groups =>
           String.intercalate " " groups))))
     | none => JsVal.bool false)
  let kwargs := dictInsert kwargs "menubar"
    (match menus with
     | some ms =>
       if ms.isEmpty then JsVal.bool false
       else JsVal.str (String.intercalate " " ms)
     | none => JsVal.bool false)
  let kwargs := dictInsert kwargs "language"
    (match language with
     | some l => if l = "" ∨ l = "en_US" then JsVal.str "en" else JsVal.str l
     | none => JsVal.str "en")
  kwargs

/-- The default `buttons` layout from `TinyMCERichTextArea.getDefaultArgs`
(rich_text.py lines 140-151). -/
def default_buttons : List (List (List String)) :=
  [[["undo", "redo"],
    ["styleselect"],
    ["bold", "italic"],
    ["bullist", "numlist", "outdent", "indent"],
    ["table"],
    ["link", "unlink"],
    ["wagtaildoclink", "wagtailimage", "wagtailembed"],
    ["pastetext", "fullscreen"]]]

/-- `TinyMCERichTextArea.value_from_datadict` (rich_text.py lines 218-222):
the underlying `Textarea` widget reads `data.get(name)`; a missing value
yields `None` untouched, otherwise the sanitizing converter
`to_database_format` is applied.  The converter is passed as a function
parameter so that independence from it is expressible. -/
def value_from_datadict (to_db : String → String)
    (data : List (String × String)) (name : String) : Option String :=
  match alookup data name with
  | none => none
  | some original_value => some (to_db original_value)

/-- The value translation in `TinyMCERichTextArea.render` (rich_text.py
lines 181-186): `None` renders as `None`, any other value is passed through
the converter's `from_database_format`. -/
def render_translated_value (from_db : String → String)
    (value : Option String) : Option String :=
  match value with
  | none => none
  | some v => some (from_db v)

/-- The stored-format invariant asserted by the spec: every `embed` element
carries exactly one `embedtype` attribute whose value has a registered
embed handler, and every `a` element that carries a `linktype` attribute
carries exactly one, with a registered link handler; recursively at every
node. -/
inductive StoredOk (w : Whitelister) : Html → Prop
  | text (s : String) : StoredOk w (Html.text s)
  | elem (name : String) (attrs : List (String × String)) (children : List Html)
      (hembed : name = "embed" →
        countKey attrs "embedtype" = 1 ∧
        ∃ t, alookup attrs "embedtype" = some t ∧
          (alookup w.embed_handlers t).isSome)
      (hlink : name = "a" → ∀ t, alookup attrs "linktype" = some t →
        countKey attrs "linktype" = 1 ∧ (alookup w.link_handlers t).isSome)
      (hchildren : ∀ x ∈ children, StoredOk w x) :
      StoredOk w (Html.elem name attrs children)

/-- A tree on which the sanitizer acts as the identity: no editor markers
(`data-embedtype` anywhere, `data-linktype` on an `a`), no `div` (which
would be renamed), and every element has an active element rule whose
attribute filter fixes its attributes.  Note that stored `<embed>` elements
and `linktype`-carrying links are *not* of this shape under the
repository's rule set — re-sanitizing them is destructive. -/
inductive AllowedTree (w : Whitelister) : Html → Prop
  | text (s : String) : AllowedTree w (Html.text s)
  | elem (name : String) (attrs : List (String × String)) (children : List Html)
      (rule : List (String × String) → List (String × String))
      (hnoembed : alookup attrs "data-embedtype" = none)
      (hnolink : name = "a" → alookup attrs "data-linktype" = none)
      (hnodiv : name ≠ "div")
      (hrule : alookup w.element_rules name = some rule)
      (hfix : rule attrs = attrs)
      (hchildren : ∀ x ∈ children, AllowedTree w x) :
      AllowedTree w (Html.elem name attrs children)

/-! ### A concrete rule set, mirroring the registrations of
src/wagtailtinymce/wagtail_hooks.py (`register_tinymce_features`), used to
instantiate hypotheses at concrete inputs.  The handlers model wagtail's
`ImageEmbedHandler.get_db_attributes` (id/format/alt from the `data-`
attributes) and `PageLinkHandler.get_db_attributes` (id from `data-id`). -/

/-- Wagtail's image embed handler: stored attributes are the element's
`data-id`, `data-format` and `data-alt` values. -/
def imageHandler : Handler :=
  ⟨fun tag =>
    match tag with
    | Html.elem _ attrs _ =>
      [("id", (alookup attrs "data-id").getD ""),
       ("format", (alookup attrs "data-format").getD ""),
       ("alt", (alookup attrs "data-alt").getD "")]
    | Html.text _ => []⟩

/-- Wagtail's page link handler: the stored attribute is the element's
`data-id` value. -/
def pageHandler : Handler :=
  ⟨fun tag =>
    match tag with
    | Html.elem _ attrs _ => [("id", (alookup attrs "data-id").getD "")]
    | Html.text _ => []⟩

/-- Wagtail's `allow_without_attributes` element rule: the tag survives,
every attribute is stripped. -/
def allow_without_attributes : List (String × String) → List (String × String) :=
  fun _ => []

/-- A whitelister with the repository's registered `image` embed handler,
`page` link handler, and a representative slice of the element rules from
wagtail_hooks.py (the `a` rule keeps only `href`, as
`attribute_rule({'href': check_url})` does; the others strip all
attributes). -/
def w0 : Whitelister :=
  { embed_handlers := [("image", imageHandler)],
    link_handlers := [("page", pageHandler)],
    element_rules :=
      [("a", fun attrs => attrs.filter (fun p => p.1 = "href")),
       ("b", allow_without_attributes),
       ("p", allow_without_attributes),
       ("br", allow_without_attributes)] }

/-! ### Dictionary lemmas -/

theorem alookup_dictInsert_self {α : Type} (d : List (String × α)) (k : String) (v : α) :
    alookup (dictInsert d k v) k = some v := by
  induction d with
  | nil => simp [dictInsert, alookup]
  | cons p rest ih =>
    obtain ⟨k2, v2⟩ := p
    by_cases hk : k2 = k
    · simp [dictInsert, hk, alookup]
    · simp [dictInsert, hk, alookup, ih]

theorem alookup_dictInsert_ne {α : Type} (d : List (String × α)) (k k2 : String) (v : α)
    (h : k ≠ k2) : alookup (dictInsert d k v) k2 = alookup d k2 := by
  induction d with
  | nil => simp [dictInsert, alookup, h]
  | cons p rest ih =>
    obtain ⟨k3, v3⟩ := p
    by_cases hk : k3 = k
    · subst hk
      simp [dictInsert, alookup, h]
    · by_cases hk2 : k3 = k2
      · subst hk2
        simp [dictInsert, hk, alookup, Ne.symm h]
      · simp [dictInsert, hk, alookup, hk2, ih]

/-! ### Unfolding equations of the sanitizer -/

theorem clean_nodes_nil (w : Whitelister) : clean_nodes w [] = [] := by
  simp [clean_nodes, clean_forest_spec]

theorem clean_nodes_cons (w : Whitelister) (x : Html) (rest : List Html) :
    clean_nodes w (x :: rest) = clean_node w x ++ clean_nodes w rest := by
  simp [clean_nodes, clean_forest_spec, clean_node]

theorem clean_contents_nil (w : Whitelister) : clean_contents w [] = [] := by
  simp [clean_contents, clean_tag_contents]

/-- One iteration of the line-74 loop: the current child `c` is replaced by
its cleaning result; the iterator advance leaves the first element of the
resulting remainder as it stands and continues past it. -/
theorem clean_contents_cons (w : Whitelister) (c : Html) (todo2 : List Html) :
    clean_contents w (c :: todo2) =
      (clean_node w c ++ todo2).take 1
        ++ clean_contents w ((clean_node w c ++ todo2).drop 1) := by
  simp [clean_contents, clean_tag_contents, clean_node]

theorem clean_node_text (w : Whitelister) (s : String) :
    clean_node w (Html.text s) = [Html.text s] := by
  simp [clean_node, clean_node_delta]

theorem clean_node_embed (w : Whitelister) (name : String) (attrs : List (String × String))
    (children : List Html) (embed_type : String) (embed_handler : Handler)
    (hmarker : alookup attrs "data-embedtype" = some embed_type)
    (hhandler : alookup w.embed_handlers embed_type = some embed_handler) :
    clean_node w (Html.elem name attrs children) =
      [Html.elem "embed"
        (dictInsert (embed_handler.get_db_attributes (Html.elem name attrs children))
          "embedtype" embed_type)
        []] := by
  simp [clean_node, clean_node_delta, hmarker, hhandler]

theorem clean_node_embed_none (w : Whitelister) (name : String)
    (attrs : List (String × String)) (children : List Html) (embed_type : String)
    (hmarker : alookup attrs "data-embedtype" = some embed_type)
    (hnohandler : alookup w.embed_handlers embed_type = none) :
    clean_node w (Html.elem name attrs children) = [] := by
  simp [clean_node, clean_node_delta, hmarker, hnohandler]

theorem clean_node_link (w : Whitelister) (attrs : List (String × String))
    (children : List Html) (link_type : String) (link_handler : Handler)
    (hnoembed : alookup attrs "data-embedtype" = none)
    (hmarker : alookup attrs "data-linktype" = some link_type)
    (hhandler : alookup w.link_handlers link_type = some link_handler) :
    clean_node w (Html.elem "a" attrs children) =
      [Html.elem "a"
        (dictInsert
          (link_handler.get_db_attributes (Html.elem "a" attrs (clean_contents w children)))
          "linktype" link_type)
        (clean_contents w children)] := by
  simp [clean_node, clean_node_delta, hnoembed, hmarker, hhandler, clean_contents]

theorem clean_node_link_none (w : Whitelister) (attrs : List (String × String))
    (children : List Html) (link_type : String)
    (hnoembed : alookup attrs "data-embedtype" = none)
    (hmarker : alookup attrs "data-linktype" = some link_type)
    (hnohandler : alookup w.link_handlers link_type = none) :
    clean_node w (Html.elem "a" attrs children) = clean_contents w children := by
  simp [clean_node, clean_node_delta, hnoembed, hmarker, hnohandler, clean_contents]

theorem clean_node_generic_rule (w : Whitelister) (name : String)
    (attrs : List (String × String)) (children : List Html)
    (rule : List (String × String) → List (String × String)) (name2 : String)
    (hnoembed : alookup attrs "data-embedtype" = none)
    (hcond : (if name = "a" then alookup attrs "data-linktype" else none) = none)
    (hname2 : (if name = "div" then "p" else name) = name2)
    (hrule : alookup w.element_rules name2 = some rule) :
    clean_node w (Html.elem name attrs children) =
      [Html.elem name2 (rule attrs) (clean_nodes w children)] := by
  subst hname2
  simp [clean_node, clean_node_delta, hnoembed, hcond, hrule, clean_nodes]

theorem clean_node_generic_unknown (w : Whitelister) (name : String)
    (attrs : List (String × String)) (children : List Html) (name2 : String)
    (hnoembed : alookup attrs "data-embedtype" = none)
    (hcond : (if name = "a" then alookup attrs "data-linktype" else none) = none)
    (hname2 : (if name = "div" then "p" else name) = name2)
    (hrule : alookup w.element_rules name2 = none) :
    clean_node w (Html.elem name attrs children) = clean_nodes w children := by
  subst hname2
  simp [clean_node, clean_node_delta, hnoembed, hcond, hrule, clean_nodes]

/-! ### Claims about the sanitizing whitelister -/

/-- C1: an element carrying a `data-embedtype` attribute whose value has a
registered embed handler is replaced, in place, by a childless (self-closing)
`embed` element whose attributes are the handler's `get_db_attributes`
output with `embedtype` set to the marker's value; the original element's
children never appear in the output and are never descended into
(`replace_with` is one-for-one, so the surrounding iteration stays
aligned). -/
theorem C1_embed_replacement (w : Whitelister) (name : String)
    (attrs : List (String × String)) (children rest : List Html)
    (embed_type : String) (embed_handler : Handler)
    (hmarker : alookup attrs "data-embedtype" = some embed_type)
    (hhandler : alookup w.embed_handlers embed_type = some embed_handler) :
    clean_nodes w (Html.elem name attrs children :: rest) =
      Html.elem "embed"
        (dictInsert (embed_handler.get_db_attributes (Html.elem name attrs children))
          "embedtype" embed_type)
        [] :: clean_nodes w rest := by
  rw [clean_nodes_cons,
    clean_node_embed w name attrs children embed_type embed_handler hmarker hhandler]
  rfl

/-- Witness for C1, the spec's own example: `<img data-embedtype="image"
data-id="4" data-format="left" data-alt="cat">` (with a child that must not
survive) sanitizes to `<embed embedtype="image" id="4" format="left"
alt="cat"/>`. -/
theorem C1_embed_replacement_witness :
    alookup [("data-embedtype", "image"), ("data-id", "4"), ("data-format", "left"),
        ("data-alt", "cat")] "data-embedtype" = some "image"
    ∧ alookup w0.embed_handlers "image" = some imageHandler
    ∧ clean_nodes w0
        [Html.elem "img"
          [("data-embedtype", "image"), ("data-id", "4"), ("data-format", "left"),
           ("data-alt", "cat")]
          [Html.text "inner child"]]
      = [Html.elem "embed"
          [("id", "4"), ("format", "left"), ("alt", "cat"), ("embedtype", "image")]
          []] := by
  refine ⟨rfl, rfl, ?_⟩
  rw [C1_embed_replacement w0 "img"
    [("data-embedtype", "image"), ("data-id", "4"), ("data-format", "left"),
     ("data-alt", "cat")]
    [Html.text "inner child"] [] "image" imageHandler rfl rfl]
  rw [clean_nodes_nil]
  rfl

/-- C2 is right about the processing step but wrong about the program as a
whole, and the program contradicts its own documentation.  Processed, an
element with an unregistered `data-embedtype` is discarded with its whole
subtree (`tag.decompose()`, line 63; first conjunct).  But that removal
happens inside the live `tag.contents` loop of line 74, which then skips
the following sibling.  In

`<a data-linktype="page" data-id="1"><img data-embedtype="video"/><img
data-embedtype="video2"><b>sub</b></img></a>`

the first `img` is decomposed and the second — itself carrying an
unregistered `data-embedtype` — is skipped and emitted unchanged, subtree
included (second conjunct), contradicting the claim, the line-62 comment
("discard embeds with unrecognised embedtypes") and the class docstring
(line 48: "replaces any element with a 'data-embedtype' attribute"). -/
theorem C2_unregistered_embed_skipped :
    clean_node w0
        (Html.elem "img" [("data-embedtype", "video2")]
          [Html.elem "b" [] [Html.text "sub"]])
      = []
    ∧ to_database_format w0
        [Html.elem "a" [("data-linktype", "page"), ("data-id", "1")]
          [Html.elem "img" [("data-embedtype", "video")] [],
           Html.elem "img" [("data-embedtype", "video2")]
             [Html.elem "b" [] [Html.text "sub"]]]]
      = [Html.elem "a" [("id", "1"), ("linktype", "page")]
          [Html.elem "img" [("data-embedtype", "video2")]
            [Html.elem "b" [] [Html.text "sub"]]]] := by
  constructor
  · exact clean_node_embed_none w0 "img" [("data-embedtype", "video2")]
      [Html.elem "b" [] [Html.text "sub"]] "video2" rfl rfl
  · show clean_nodes w0 _ = _
    rw [clean_nodes_cons,
      clean_node_link w0 [("data-linktype", "page"), ("data-id", "1")]
        [Html.elem "img" [("data-embedtype", "video")] [],
         Html.elem "img" [("data-embedtype", "video2")]
           [Html.elem "b" [] [Html.text "sub"]]]
        "page" pageHandler rfl rfl rfl,
      clean_contents_cons,
      clean_node_embed_none w0 "img" [("data-embedtype", "video")] [] "video" rfl rfl]
    simp [clean_contents_nil, clean_nodes_nil, pageHandler, alookup, dictInsert]

/-- C3 as stated is false: the `data-embedtype` branch of `clean_tag_node`
(line 56) is checked before the `a`/`data-linktype` branch (line 72), so an
`a` element that carries a registered `data-linktype` marker but also a
`data-embedtype` marker is not processed as a typed link.  Concretely,
`<a data-linktype="page" data-embedtype="video">Home</a>` under the
repository rule set (registered `page` link handler, no `video` embed
handler) is decomposed to nothing instead of being kept with its rewritten
attributes and its text child. -/
theorem C3_counterexample :
    ¬ (∀ (w : Whitelister) (attrs : List (String × String)) (children : List Html)
        (link_type : String) (link_handler : Handler),
        alookup attrs "data-linktype" = some link_type →
        alookup w.link_handlers link_type = some link_handler →
        clean_nodes w [Html.elem "a" attrs children] =
          [Html.elem "a"
            (dictInsert
              (link_handler.get_db_attributes
                (Html.elem "a" attrs (clean_nodes w children)))
              "linktype" link_type)
            (clean_nodes w children)]) := by
  intro hclaim
  have h := hclaim w0 [("data-linktype", "page"), ("data-embedtype", "video")]
    [Html.text "Home"] "page" pageHandler rfl rfl
  rw [clean_nodes_cons,
    clean_node_embed_none w0 "a" [("data-linktype", "page"), ("data-embedtype", "video")]
      [Html.text "Home"] "video" rfl rfl,
    clean_nodes_nil] at h
  simp at h

/-- C3 (amended): an `a` element carrying a `data-linktype` attribute with
a registered link handler *and no `data-embedtype` attribute* first has its
contents run through the line-74 live-list loop — each child the loop
reaches is sanitized, but the child following a removed one is skipped and
kept unsanitized — and then keeps the element with its attribute set
replaced wholesale by the handler's `get_db_attributes` output (computed on
the element with its post-loop contents) with `linktype` set to the
marker's value; the post-loop contents are untouched by the attribute
rewrite. -/
theorem C3_typed_link_rewrite (w : Whitelister) (attrs : List (String × String))
    (children rest : List Html) (link_type : String) (link_handler : Handler)
    (hnoembed : alookup attrs "data-embedtype" = none)
    (hmarker : alookup attrs "data-linktype" = some link_type)
    (hhandler : alookup w.link_handlers link_type = some link_handler) :
    clean_nodes w (Html.elem "a" attrs children :: rest) =
      Html.elem "a"
        (dictInsert
          (link_handler.get_db_attributes
            (Html.elem "a" attrs (clean_contents w children)))
          "linktype" link_type)
        (clean_contents w children) :: clean_nodes w rest := by
  rw [clean_nodes_cons,
    clean_node_link w attrs children link_type link_handler hnoembed hmarker hhandler]
  rfl

/-- Witness for the amended C3:
`<a data-linktype="page" data-id="1"><img data-embedtype="video"/><em
foo="1">t</em></a>` sanitizes to `<a id="1" linktype="page"><em
foo="1">t</em></a>` — the attribute rewrite happens, the decomposed `img`
is gone, and the `em` that followed it is kept *unsanitized* (its `foo`
attribute and the `em` wrapper survive although no `em` rule exists). -/
theorem C3_typed_link_rewrite_witness :
    alookup [("data-linktype", "page"), ("data-id", "1")] "data-embedtype" = none
    ∧ alookup [("data-linktype", "page"), ("data-id", "1")] "data-linktype" = some "page"
    ∧ alookup w0.link_handlers "page" = some pageHandler
    ∧ clean_nodes w0
        [Html.elem "a" [("data-linktype", "page"), ("data-id", "1")]
          [Html.elem "img" [("data-embedtype", "video")] [],
           Html.elem "em" [("foo", "1")] [Html.text "t"]]]
      = [Html.elem "a" [("id", "1"), ("linktype", "page")]
          [Html.elem "em" [("foo", "1")] [Html.text "t"]]] := by
  refine ⟨rfl, rfl, rfl, ?_⟩
  rw [C3_typed_link_rewrite w0 [("data-linktype", "page"), ("data-id", "1")]
    [Html.elem "img" [("data-embedtype", "video")] [],
     Html.elem "em" [("foo", "1")] [Html.text "t"]]
    [] "page" pageHandler rfl rfl rfl]
  rw [clean_contents_cons,
    clean_node_embed_none w0 "img" [("data-embedtype", "video")] [] "video" rfl rfl]
  simp [clean_contents_nil, clean_nodes_nil, pageHandler, alookup, dictInsert]

/-- C4 as stated is false, for the same reason as C3: the `data-embedtype`
branch takes precedence, so `<a data-linktype="member"
data-embedtype="video">Home</a>` (neither type registered) is decomposed —
its text child is discarded — instead of being unwrapped to its sanitized
children. -/
theorem C4_counterexample :
    ¬ (∀ (w : Whitelister) (attrs : List (String × String)) (children : List Html)
        (link_type : String),
        alookup attrs "data-linktype" = some link_type →
        alookup w.link_handlers link_type = none →
        clean_nodes w [Html.elem "a" attrs children] = clean_nodes w children) := by
  intro hclaim
  have h := hclaim w0 [("data-linktype", "member"), ("data-embedtype", "video")]
    [Html.text "Home"] "member" rfl rfl
  rw [clean_nodes_cons,
    clean_node_embed_none w0 "a" [("data-linktype", "member"), ("data-embedtype", "video")]
      [Html.text "Home"] "video" rfl rfl,
    clean_nodes_nil, clean_nodes_cons, clean_node_text, clean_nodes_nil] at h
  simp at h

/-- C4 (amended): an `a` element carrying a `data-linktype` attribute whose
value has no registered link handler *and no `data-embedtype` attribute* is
unwrapped: the final state of its contents after the line-74 live-list loop
— each child the loop reaches sanitized, a child following a removed one
promoted unsanitized — is promoted to the parent in place of the `a`
wrapper, whose marker attributes are discarded; the text content is not
discarded. -/
theorem C4_link_unregistered_unwrapped (w : Whitelister)
    (attrs : List (String × String)) (children rest : List Html) (link_type : String)
    (hnoembed : alookup attrs "data-embedtype" = none)
    (hmarker : alookup attrs "data-linktype" = some link_type)
    (hnohandler : alookup w.link_handlers link_type = none) :
    clean_nodes w (Html.elem "a" attrs children :: rest) =
      clean_contents w children ++ clean_nodes w rest := by
  rw [clean_nodes_cons,
    clean_node_link_none w attrs children link_type hnoembed hmarker hnohandler]

/-- Witness for the amended C4: `<a data-linktype="member"><img
data-embedtype="video"/><em foo="1">t</em>Home</a>` (no `member` handler)
unwraps to its post-loop contents — the decomposed `img` gone, the skipped
`em` promoted unsanitized, the text kept — spliced before the following
sibling. -/
theorem C4_link_unregistered_unwrapped_witness :
    alookup [("data-linktype", "member")] "data-embedtype" = none
    ∧ alookup [("data-linktype", "member")] "data-linktype" = some "member"
    ∧ alookup w0.link_handlers "member" = none
    ∧ clean_nodes w0
        [Html.elem "a" [("data-linktype", "member")]
          [Html.elem "img" [("data-embedtype", "video")] [],
           Html.elem "em" [("foo", "1")] [Html.text "t"],
           Html.text "Home"],
         Html.text "tail"]
      = [Html.elem "em" [("foo", "1")] [Html.text "t"], Html.text "Home",
         Html.text "tail"] := by
  refine ⟨rfl, rfl, rfl, ?_⟩
  rw [C4_link_unregistered_unwrapped w0 [("data-linktype", "member")]
    [Html.elem "img" [("data-embedtype", "video")] [],
     Html.elem "em" [("foo", "1")] [Html.text "t"],
     Html.text "Home"]
    [Html.text "tail"] "member" rfl rfl rfl]
  rw [clean_contents_cons,
    clean_node_embed_none w0 "img" [("data-embedtype", "video")] [] "video" rfl rfl]
  simp only [List.nil_append]
  rw [show (([Html.elem "em" [("foo", "1")] [Html.text "t"],
      Html.text "Home"] : List Html).take 1) = [Html.elem "em" [("foo", "1")] [Html.text "t"]] from rfl,
    show (([Html.elem "em" [("foo", "1")] [Html.text "t"],
      Html.text "Home"] : List Html).drop 1) = [Html.text "Home"] from rfl,
    clean_contents_cons, clean_node_text]
  simp [clean_contents_nil, clean_nodes_cons, clean_node_text, clean_nodes_nil]

/-- C5's invariant is the spec's and the code's documented intent, but the
program violates it, again through the line-74 live-list skip: in
`<a data-linktype="page" data-id="1"><img data-embedtype="video"/><embed
embedtype="bogus"/></a>` the `img` is decomposed and the raw
`<embed embedtype="bogus"/>` — whose type has no registered handler — is
skipped and passed through unchanged into the stored output (first
conjunct), so the output contains an `embed` element with an unrecognized
type tag and the stored-format invariant fails on it (last conjunct). -/
theorem C5_invariant_violation_trace :
    to_database_format w0
        [Html.elem "a" [("data-linktype", "page"), ("data-id", "1")]
          [Html.elem "img" [("data-embedtype", "video")] [],
           Html.elem "embed" [("embedtype", "bogus")] []]]
      = [Html.elem "a" [("id", "1"), ("linktype", "page")]
          [Html.elem "embed" [("embedtype", "bogus")] []]]
    ∧ alookup w0.embed_handlers "bogus" = none
    ∧ ¬ (∀ x ∈ to_database_format w0
          [Html.elem "a" [("data-linktype", "page"), ("data-id", "1")]
            [Html.elem "img" [("data-embedtype", "video")] [],
             Html.elem "embed" [("embedtype", "bogus")] []]],
          StoredOk w0 x) := by
  have htrace : to_database_format w0
      [Html.elem "a" [("data-linktype", "page"), ("data-id", "1")]
        [Html.elem "img" [("data-embedtype", "video")] [],
         Html.elem "embed" [("embedtype", "bogus")] []]]
      = [Html.elem "a" [("id", "1"), ("linktype", "page")]
          [Html.elem "embed" [("embedtype", "bogus")] []]] := by
    show clean_nodes w0 _ = _
    rw [clean_nodes_cons,
      clean_node_link w0 [("data-linktype", "page"), ("data-id", "1")]
        [Html.elem "img" [("data-embedtype", "video")] [],
         Html.elem "embed" [("embedtype", "bogus")] []]
        "page" pageHandler rfl rfl rfl,
      clean_contents_cons,
      clean_node_embed_none w0 "img" [("data-embedtype", "video")] [] "video" rfl rfl]
    simp [clean_contents_nil, clean_nodes_nil, pageHandler, alookup, dictInsert]
  refine ⟨htrace, rfl, ?_⟩
  intro hall
  rw [htrace] at hall
  have h := hall _ (List.mem_cons_self _ _)
  cases h with
  | elem _ _ _ hembed hlink hch =>
    have hc := hch _ (List.mem_cons_self _ _)
    cases hc with
    | elem _ _ _ hembed2 _ _ =>
      obtain ⟨hcount, t, hlook, hsome⟩ := hembed2 rfl
      simp [alookup] at hlook
      rw [← hlook] at hsome
      simp [w0, alookup] at hsome

theorem clean_nodes_id_of_members (w : Whitelister) (l : List Html)
    (h : ∀ x ∈ l, clean_node w x = [x]) : clean_nodes w l = l := by
  induction l with
  | nil => exact clean_nodes_nil w
  | cons y ys ih =>
    rw [clean_nodes_cons, h y (List.mem_cons_self _ _),
      ih (fun z hz => h z (List.mem_cons_of_mem _ hz))]
    rfl

theorem allowed_clean_node (w : Whitelister) (x : Html) (hx : AllowedTree w x) :
    clean_node w x = [x] := by
  induction hx with
  | text s => exact clean_node_text w s
  | elem name attrs children rule hnoembed hnolink hnodiv hrule hfix hchildren ih =>
    have hcond : (if name = "a" then alookup attrs "data-linktype" else none) = none := by
      by_cases ha : name = "a" <;> simp [ha, hnolink]
    rw [clean_node_generic_rule w name attrs children rule name hnoembed hcond
      (if_neg hnodiv) hrule]
    rw [hfix, clean_nodes_id_of_members w children ih]

/-- C6's "equivalently, applying to_database_format to its own output
yields the same result" is false of the program: the first clause's
hypothesis ("containing only tags and attributes allowed by the active rule
set") excludes the stored `<embed>` elements and typed links the sanitizer
itself emits.  Re-sanitizing the sanitizer's own output destroys them: the
spec example's output `<embed embedtype="image" id="4" format="left"
alt="cat"/>` has no `embed` element rule, so a second pass erases it
entirely. -/
theorem C6_counterexample :
    to_database_format w0
        [Html.elem "img"
          [("data-embedtype", "image"), ("data-id", "4"), ("data-format", "left"),
           ("data-alt", "cat")] []]
      = [Html.elem "embed"
          [("id", "4"), ("format", "left"), ("alt", "cat"), ("embedtype", "image")] []]
    ∧ to_database_format w0
        [Html.elem "embed"
          [("id", "4"), ("format", "left"), ("alt", "cat"), ("embedtype", "image")] []]
      = []
    ∧ ([] : List Html)
      ≠ [Html.elem "embed"
          [("id", "4"), ("format", "left"), ("alt", "cat"), ("embedtype", "image")] []] := by
  refine ⟨?_, ?_, by simp⟩
  · show clean_nodes w0 _ = _
    rw [clean_nodes_cons,
      clean_node_embed w0 "img"
        [("data-embedtype", "image"), ("data-id", "4"), ("data-format", "left"),
         ("data-alt", "cat")]
        [] "image" imageHandler rfl rfl,
      clean_nodes_nil]
    rfl
  · show clean_nodes w0 _ = _
    rw [clean_nodes_cons,
      clean_node_generic_unknown w0 "embed"
        [("id", "4"), ("format", "left"), ("alt", "cat"), ("embedtype", "image")]
        [] "embed" rfl (by simp) (by simp) rfl,
      clean_nodes_nil]
    rfl

/-- C6 (amended): `to_database_format` returns unchanged every forest whose
elements all have an active element rule fixing their attributes and carry
no editor markers and no `div`; it is *not* idempotent on all of its own
outputs, since stored `<embed>` elements (and typed links' `linktype`/`id`
attributes) fall outside this shape and are destroyed by a second pass. -/
theorem C6_idempotent_on_sanitized (w : Whitelister) (doc : List Html)
    (hallowed : ∀ x ∈ doc, AllowedTree w x) :
    to_database_format w doc = doc := by
  show clean_nodes w doc = doc
  exact clean_nodes_id_of_members w doc
    (fun x hx => allowed_clean_node w x (hallowed x hx))

/-- Witness for C6: a stored-format forest — `<p>hi</p><a
href="http://x/">link</a>` — under the repository rule set is returned
unchanged. -/
theorem C6_idempotent_on_sanitized_witness :
    (∀ x ∈ [Html.elem "p" [] [Html.text "hi"],
            Html.elem "a" [("href", "http://x/")] [Html.text "link"]],
      AllowedTree w0 x)
    ∧ to_database_format w0
        [Html.elem "p" [] [Html.text "hi"],
         Html.elem "a" [("href", "http://x/")] [Html.text "link"]]
      = [Html.elem "p" [] [Html.text "hi"],
         Html.elem "a" [("href", "http://x/")] [Html.text "link"]] := by
  have hp : AllowedTree w0 (Html.elem "p" [] [Html.text "hi"]) := by
    refine AllowedTree.elem "p" [] [Html.text "hi"] allow_without_attributes rfl
      (fun _ => rfl) (by decide) rfl rfl ?_
    intro x hx
    rw [List.mem_singleton] at hx
    exact hx ▸ AllowedTree.text "hi"
  have hA : AllowedTree w0 (Html.elem "a" [("href", "http://x/")] [Html.text "link"]) := by
    refine AllowedTree.elem "a" [("href", "http://x/")] [Html.text "link"]
      (fun attrs => attrs.filter (fun p => p.1 = "href")) rfl (fun _ => rfl)
      (by decide) rfl rfl ?_
    intro x hx
    rw [List.mem_singleton] at hx
    exact hx ▸ AllowedTree.text "link"
  have hall : ∀ x ∈ [Html.elem "p" [] [Html.text "hi"],
      Html.elem "a" [("href", "http://x/")] [Html.text "link"]], AllowedTree w0 x := by
    intro x hx
    rcases List.mem_cons.mp hx with h | h
    · exact h ▸ hp
    · rw [List.mem_singleton] at h
      exact h ▸ hA
  exact ⟨hall, C6_idempotent_on_sanitized w0 _ hall⟩

/-- C7: a `div` element with no `data-embedtype` attribute is renamed to
`p` before the generic tag rule is applied: with a rule active for `p` the
element survives as a `p` carrying the rule-filtered attributes and its
sanitized children. -/
theorem C7_div_renamed_to_p (w : Whitelister) (attrs : List (String × String))
    (children rest : List Html)
    (rule : List (String × String) → List (String × String))
    (hnoembed : alookup attrs "data-embedtype" = none)
    (hrule : alookup w.element_rules "p" = some rule) :
    clean_nodes w (Html.elem "div" attrs children :: rest) =
      Html.elem "p" (rule attrs) (clean_nodes w children) :: clean_nodes w rest := by
  rw [clean_nodes_cons,
    clean_node_generic_rule w "div" attrs children rule "p" hnoembed (by simp)
      (by simp) hrule]
  rfl

/-- Witness for C7: `<div>hi</div>` under the repository rule set (the `p`
rule `allow_without_attributes` is active) sanitizes to `<p>hi</p>`. -/
theorem C7_div_renamed_to_p_witness :
    alookup ([] : List (String × String)) "data-embedtype" = none
    ∧ alookup w0.element_rules "p" = some allow_without_attributes
    ∧ clean_nodes w0 [Html.elem "div" [] [Html.text "hi"]]
      = [Html.elem "p" [] [Html.text "hi"]] := by
  refine ⟨rfl, rfl, ?_⟩
  rw [C7_div_renamed_to_p w0 [] [Html.text "hi"] [] allow_without_attributes rfl rfl]
  rw [clean_nodes_cons, clean_node_text, clean_nodes_nil]
  rfl

/-! ### Claims about the widget adapter -/

/-- C8 as stated is false: `render_js_init` (rich_text.py line 211) only
tests `language == 'en_US'`, so the region-qualified English locale
`en_GB` is *not* collapsed to `en` — it is passed through unchanged. -/
theorem C8_counterexample :
    alookup (render_js_config [] none none (some "en_GB")) "language"
      = some (JsVal.str "en_GB")
    ∧ JsVal.str "en_GB" ≠ JsVal.str "en" := by
  exact ⟨rfl, by decide⟩

/-- C8 (amended): the serialized `language` key is `"en"` exactly when the
configured language value is absent, empty, or the single locale `en_US`;
every other value — including other region-qualified English locales such
as `en_GB` — is passed through unchanged. -/
theorem C8_language_normalization (opts : List (String × JsVal))
    (buttons : Option (List (List (List String)))) (menus : Option (List String))
    (l : String) (h1 : l ≠ "") (h2 : l ≠ "en_US") :
    alookup (render_js_config opts buttons menus none) "language"
      = some (JsVal.str "en")
    ∧ alookup (render_js_config opts buttons menus (some "")) "language"
      = some (JsVal.str "en")
    ∧ alookup (render_js_config opts buttons menus (some "en_US")) "language"
      = some (JsVal.str "en")
    ∧ alookup (render_js_config opts buttons menus (some l)) "language"
      = some (JsVal.str l) := by
  refine ⟨?_, ?_, ?_, ?_⟩ <;> simp only [render_js_config]
  · rw [alookup_dictInsert_self]
  · rw [alookup_dictInsert_self]
    simp
  · rw [alookup_dictInsert_self]
    simp
  · rw [alookup_dictInsert_self]
    simp [h1, h2]

/-- Witness for the amended C8: French passes through, the three
collapsing cases give `en`. -/
theorem C8_language_normalization_witness :
    ("fr_FR" : String) ≠ ""
    ∧ ("fr_FR" : String) ≠ "en_US"
    ∧ alookup (render_js_config [] none none none) "language" = some (JsVal.str "en")
    ∧ alookup (render_js_config [] none none (some "")) "language" = some (JsVal.str "en")
    ∧ alookup (render_js_config [] none none (some "en_US")) "language"
      = some (JsVal.str "en")
    ∧ alookup (render_js_config [] none none (some "fr_FR")) "language"
      = some (JsVal.str "fr_FR") := by
  have h := C8_language_normalization [] none none "fr_FR" (by decide) (by decide)
  exact ⟨by decide, by decide, h.1, h.2.1, h.2.2.1, h.2.2.2⟩

/-- C9: for a truthy `buttons` configuration the serialized `toolbar` key
is the list with one string per row, command names space-joined within a
group and groups joined by `" | "`; for an absent or empty `buttons` it is
`False`. -/
theorem C9_toolbar_rows (opts : List (String × JsVal)) (menus : Option (List String))
    (language : Option String) (bs : List (List (List String)))
    (hne : bs ≠ []) :
    alookup (render_js_config opts (some bs) menus language) "toolbar"
      = some (JsVal.strs (bs.map (fun row =>
          String.intercalate " | " (row.map (fun groups =>
            String.intercalate " " groups)))))
    ∧ alookup (render_js_config opts none menus language) "toolbar"
      = some (JsVal.bool false)
    ∧ alookup (render_js_config opts (some []) menus language) "toolbar"
      = some (JsVal.bool false) := by
  refine ⟨?_, ?_, ?_⟩ <;> simp only [render_js_config] <;>
    rw [alookup_dictInsert_ne _ _ _ _ (by decide),
      alookup_dictInsert_ne _ _ _ _ (by decide), alookup_dictInsert_self] <;>
    simp [hne]

/-- Witness for C9 on the default button layout of `getDefaultArgs`: the
single row flattens to the expected `" | "`-separated toolbar string. -/
theorem C9_toolbar_rows_witness :
    default_buttons ≠ []
    ∧ alookup (render_js_config [] (some default_buttons) none none) "toolbar"
      = some (JsVal.strs
          ["undo redo | styleselect | bold italic | bullist numlist outdent indent | table | link unlink | wagtaildoclink wagtailimage wagtailembed | pastetext fullscreen"])
    ∧ alookup (render_js_config [] none none none) "toolbar" = some (JsVal.bool false) := by
  have h := C9_toolbar_rows [] none none default_buttons (by decide)
  refine ⟨by decide, ?_, h.2.1⟩
  rw [h.1]
  rfl

/-- C10: when the submitted form data has no value under the field name,
`value_from_datadict` returns `None` without invoking the sanitizing
converter (the result is `none` for *every* converter function `to_db`),
and `render` with a `None` value translates it to `None` without invoking
`from_database_format` (again for every converter function). -/
theorem C10_none_bypasses_conversion (to_db from_db : String → String)
    (data : List (String × String)) (name : String)
    (habsent : alookup data name = none) :
    value_from_datadict to_db data name = none
    ∧ render_translated_value from_db none = none := by
  refine ⟨?_, rfl⟩
  unfold value_from_datadict
  rw [habsent]

/-- Witness for C10: a form submission without the field, and a `None`
stored value. -/
theorem C10_none_bypasses_conversion_witness :
    alookup ([("other_field", "v")] : List (String × String)) "body" = none
    ∧ value_from_datadict (fun s => s) [("other_field", "v")] "body" = none
    ∧ render_translated_value (fun s => s) none = none := by
  have h := C10_none_bypasses_conversion (fun s => s) (fun s => s)
    [("other_field", "v")] "body" rfl
  exact ⟨rfl, h.1, h.2⟩
